import Mathlib

/-!
Verification development for the k-11 plugin / module-federation loader.

The definitions below are a shallow embedding of the TypeScript sources:
  - `packages/plugin-loader/src/loaders/ModuleFederationLoader.ts`
    (`initializeSharing`, `loadRemoteContainer`, `loadModule`), modelled as a
    small-step event machine over the loader's state (cache map, sharing flag,
    injected script, global container registry);
  - `packages/plugin-loader/src/loaders/ReactLoader.ts`
    (`loadModuleFederationRemote`'s component-extraction precedence and
    error discrimination), modelled as pure functions over a JS value model;
  - `packages/plugin-registry/src/PluginRegistry.ts` (both variants of
    `fetchPlugins`);
  - `PluginLoader.loadByFramework` (the framework dispatcher).

JavaScript's single-threaded event loop is modelled by atomic steps: each
synchronous segment of the source (from one `await` / event-handler boundary
to the next) is one transition of `step`, and the scheduler's freedom to
interleave concurrent `loadModule` calls with the asynchronous phases of an
in-flight container load is the freedom to choose the event trace.
-/

set_option maxHeartbeats 1000000

namespace K11

/-! ### JavaScript value model -/

/-- A JavaScript runtime value, as far as the loader inspects values:
functions (components), plain objects with string-keyed fields, strings,
booleans, `null` and `undefined`.  A React element is an object whose
`$$typeof` field is truthy. -/
inductive JsVal where
  | jsUndefined
  | jsNull
  | func (id : Nat)
  | str (s : String)
  | boolean (b : Bool)
  | obj (fields : List (String × JsVal))

/-- Association-list lookup, the model of reading `m[k]` / `Map.get`. -/
def afind {κ α : Type} [DecidableEq κ] (k : κ) : List (κ × α) → Option α
  | [] => none
  | (k', v) :: t => if k = k' then some v else afind k t

/-- Association-list update, the model of `m[k] = v` / `Map.set`. -/
def aset {κ α : Type} [DecidableEq κ] (k : κ) (v : α) : List (κ × α) → List (κ × α)
  | [] => [(k, v)]
  | (k', v') :: t => if k = k' then (k, v) :: t else (k', v') :: aset k v t

/-- Association-list removal, the model of `Map.delete`. -/
def adel {κ α : Type} [DecidableEq κ] (k : κ) : List (κ × α) → List (κ × α)
  | [] => []
  | (k', v) :: t => if k' = k then adel k t else (k', v) :: adel k t

/-- `typeof v` in JavaScript (note `typeof null` is `"object"`). -/
def jsTypeof : JsVal → String
  | .jsUndefined => "undefined"
  | .jsNull => "object"
  | .func _ => "function"
  | .str _ => "string"
  | .boolean _ => "boolean"
  | .obj _ => "object"

/-- JavaScript truthiness of a value. -/
def truthy : JsVal → Bool
  | .jsUndefined => false
  | .jsNull => false
  | .func _ => true
  | .str s => s ≠ ""
  | .boolean b => b
  | .obj _ => true

/-- `v === null || v === undefined`, the values skipped by `??`. -/
def isNullish : JsVal → Bool
  | .jsUndefined => true
  | .jsNull => true
  | _ => false

/-- The nullish-coalescing operator `a ?? b`. -/
def coalesce (a b : JsVal) : JsVal :=
  if isNullish a then b else a

/-- Property read `v[k]`: a missing field of an object is `undefined`;
reads on non-objects are only performed by the source after a
`typeof v === "object"` guard, so other cases return `undefined`. -/
def getField (v : JsVal) (k : String) : JsVal :=
  match v with
  | .obj fields => (afind k fields).getD .jsUndefined
  | _ => .jsUndefined

/-- `Object.keys(Module).join(", ")` when `Module` is a truthy object,
otherwise `"N/A"` (ReactLoader.ts lines 81, 98). -/
def availableKeys : JsVal → String
  | .obj fields => String.intercalate ", " (fields.map Prod.fst)
  | _ => "N/A"

/-- `module.replace(/^.\//, "")` (ReactLoader.ts line 70): drop a leading
two-character `<any>/` sequence (regex `.` does not match a newline). -/
def stripModulePath (s : String) : String :=
  match s.data with
  | c :: '/' :: rest => if c = '\n' then s else String.mk rest
  | _ => s

/-! ### ReactLoader: component extraction (ReactLoader.ts lines 65-100) -/

/-- The three distinct failures of the extraction step in
`ReactLoader.loadModuleFederationRemote`:
* `noComponent`: "did not export a valid React component" (lines 80-86),
  carrying `typeof Module` and the joined key list;
* `elementNotComponent`: "exported a React element instead of a component"
  (lines 89-94);
* `invalidComponentType`: "exported invalid component type" (lines 95-99). -/
inductive ReactError where
  | noComponent (gotType : String) (keys : String)
  | elementNotComponent (remoteName : String)
  | invalidComponentType (gotType : String) (keys : String)
deriving DecidableEq, Repr

/-- Lines 65-78: the extraction precedence.  A function module is the
component itself; an object module is searched as
`default ?? Module[moduleName] ?? App ?? Component ?? InboxApp ??
MonitoringApp` where `moduleName` is the module path without its leading
`./`; anything else leaves `component` as the initial `null`. -/
def extractComponent (Module : JsVal) (modulePath : String) : JsVal :=
  if jsTypeof Module = "function" then Module
  else if truthy Module ∧ jsTypeof Module = "object" then
    let moduleName := stripModulePath modulePath
    coalesce (getField Module "default")
      (coalesce (getField Module moduleName)
        (coalesce (getField Module "App")
          (coalesce (getField Module "Component")
            (coalesce (getField Module "InboxApp")
              (getField Module "MonitoringApp")))))
  else .jsNull

/-- Lines 65-102: extraction followed by the shape checks.  A falsy
`component` is `noComponent`; a non-function with a truthy `$$typeof`
field is the distinct React-element error; any other non-function is
`invalidComponentType`; otherwise the component is returned. -/
def resolveReactComponent (remoteName : String) (Module : JsVal)
    (modulePath : String) : Except ReactError JsVal :=
  let component := extractComponent Module modulePath
  if ¬ truthy component then
    .error (.noComponent (jsTypeof Module) (availableKeys Module))
  else if jsTypeof component ≠ "function" then
    if truthy component ∧ jsTypeof component = "object" ∧
        truthy (getField component "$$typeof") then
      .error (.elementNotComponent remoteName)
    else
      .error (.invalidComponentType (jsTypeof component) (availableKeys Module))
  else
    .ok component

/-! ### PluginRegistry: descriptor model and `fetchPlugins`
(PluginRegistry.ts, both variants) -/

/-- Display-only metadata of a plugin descriptor (`PluginMetadata`). -/
structure PluginMetadata where
  title : String
  icon : Option String := none
  description : Option String := none
deriving DecidableEq, Repr

/-- A plugin descriptor (`Plugin` in `plugin-registry/src/types.ts`).
`framework` is a string because at runtime the backend may hand the
loader any tag, including unrecognized ones. -/
structure Plugin where
  id : String
  name : String
  route : String
  framework : String
  entryUrl : String
  modulePath : Option String := none
  remoteName : Option String := none
  manifestUrl : Option String := none
  version : Option String := none
  enabled : Bool
  metadata : PluginMetadata
deriving DecidableEq, Repr

/-- The `MOCK_PLUGINS` constant of the first `PluginRegistry` variant. -/
def MOCK_PLUGINS : List Plugin :=
  [ { id := "k11-inbox", name := "Inbox", route := "/inbox", framework := "react",
      entryUrl := "http://localhost:3001/remoteEntry.js",
      remoteName := some "k11Inbox", modulePath := some "./InboxApp",
      enabled := true,
      metadata := { title := "Notification Inbox", icon := some "inbox",
                    description := some "View and manage notifications." } },
    { id := "k11-monitoring", name := "Monitoring", route := "/monitoring",
      framework := "react", entryUrl := "http://localhost:3002/remoteEntry.js",
      remoteName := some "k11Monitoring", modulePath := some "./MonitoringApp",
      enabled := true,
      metadata := { title := "System Monitoring", icon := some "monitor",
                    description := some "Live monitoring dashboards." } },
    { id := "legacy-erp", name := "Legacy ERP", route := "/legacy-erp",
      framework := "html", entryUrl := "https://legacy.example.com/app/",
      enabled := true,
      metadata := { title := "Legacy ERP", icon := some "building",
                    description := some "Embedded legacy ERP via iframe." } } ]

/-- Does `haystack` start with `needle` (character lists)? -/
def leadsWith : List Char → List Char → Bool
  | [], _ => true
  | _ :: _, [] => false
  | a :: as, b :: bs => a = b && leadsWith as bs

/-- Does `needle` occur anywhere inside `hay` (character lists)? -/
def occursWithin (needle : List Char) : List Char → Bool
  | [] => needle.isEmpty
  | c :: t => leadsWith needle (c :: t) || occursWithin needle t

/-- JavaScript's `hay.includes(needle)` on strings. -/
def strIncludes (hay needle : String) : Bool :=
  occursWithin needle.data hay.data

/-- The response object as far as `fetchPlugins` inspects it: `ok`,
`status`, `statusText`, the `content-type` header, the body text, and
the result of `response.json()` (`none` when the body is not valid JSON
for the expected shape, in which case `json()` rejects). -/
structure HttpResponse where
  ok : Bool
  status : Nat
  statusText : String
  contentType : Option String
  bodyText : String
  parsedJson : Option (List Plugin)
deriving DecidableEq, Repr

/-- Outcome of a `fetchPlugins` call: a resolved plugin list or a
rejection with the thrown error's message. -/
inductive FetchOutcome where
  | plugins (l : List Plugin)
  | error (msg : String)
deriving DecidableEq, Repr

/-- Is the outcome a rejection? -/
def FetchOutcome.isError : FetchOutcome → Bool
  | .error _ => true
  | _ => false

/-- `${contentType || "unknown"}`: a missing or empty header prints as
`"unknown"`. -/
def contentTypeDisplay : Option String → String
  | none => "unknown"
  | some s => if s = "" then "unknown" else s

/-- `!contentType || !contentType.includes("application/json")`
(PluginRegistry.ts line 84), i.e. the condition under which the first
variant rejects a 200 response. -/
def contentTypeNotJson (ct : Option String) : Bool :=
  match ct with
  | none => true
  | some s => if s = "" then true else ¬ strIncludes s "application/json"

/-- First `fetchPlugins` variant (PluginRegistry.ts lines 57-103): mock
short-circuit, HTTP status check, content-type check, JSON parse, then
`data.filter(plugin => plugin.enabled)`. -/
def fetchPluginsChecked (useMockPlugins : Bool) (resp : HttpResponse) :
    FetchOutcome :=
  if useMockPlugins then
    .plugins (MOCK_PLUGINS.filter (·.enabled))
  else if ¬ resp.ok then
    .error ("Failed to fetch plugins: " ++ toString resp.status ++ " " ++
      resp.statusText)
  else if contentTypeNotJson resp.contentType then
    .error ("Expected JSON but got " ++ contentTypeDisplay resp.contentType ++
      ". Response: " ++ resp.bodyText.take 200)
  else
    match resp.parsedJson with
    | none => .error "Unexpected token in JSON"
    | some data => .plugins (data.filter (·.enabled))

/-- Second `fetchPlugins` variant (lines 113-125): only the HTTP status
is checked; the body is handed to `response.json()` regardless of the
content type. -/
def fetchPluginsSimple (resp : HttpResponse) : FetchOutcome :=
  if ¬ resp.ok then
    .error ("Failed to fetch plugins (" ++ toString resp.status ++ ")")
  else
    match resp.parsedJson with
    | none => .error "Unexpected token in JSON"
    | some data => .plugins (data.filter (·.enabled))

/-! ### PluginLoader: framework dispatch (`loadByFramework`) -/

/-- Which loader `PluginLoader.loadByFramework` constructs and delegates
to.  Every network effect (catalog fetch aside) in the repository happens
inside one of these loaders, so an `Except.error` outcome of the dispatch
entails zero fetches and zero script injections for that descriptor. -/
inductive LoaderChoice where
  | reactLoader
  | angularLoader
  | htmlLoader
deriving DecidableEq, Repr

/-- `PluginLoader.loadByFramework`: `"react"` and `"vue"` go to a freshly
constructed `ReactLoader`, `"angular"` to an `AngularLoader`, `"html"` to
an `HtmlLoader`; any other tag throws `Unsupported framework: <tag>`
before any loader exists. -/
def loadByFramework (plugin : Plugin) : Except String LoaderChoice :=
  if plugin.framework = "react" ∨ plugin.framework = "vue" then
    .ok .reactLoader
  else if plugin.framework = "angular" then
    .ok .angularLoader
  else if plugin.framework = "html" then
    .ok .htmlLoader
  else
    .error ("Unsupported framework: " ++ plugin.framework)

/-! ### ModuleFederationLoader: the event machine

State and transitions of `ModuleFederationLoader` (ModuleFederationLoader.ts).
Each constructor of `Ev` is one synchronous segment of the source or one
environment event:

* `call`: a `loadModule(config, modulePath)` invocation, up to its first
  suspension.  The cache check (line 148), the `loadRemoteContainer` call and
  the `loadedContainers.set` (lines 155-156) and the creator's subscription
  to the promise (line 159) are one synchronous block, hence one step.
* `advance p`: the scheduler runs the next pending segment of load `p`'s
  `loadRemoteContainer` body: the `sharingInitialized` check plus the
  `__webpack_init_sharing__("default")` call (lines 34-41), the completion
  of that call plus `sharingInitialized = true` (line 42), or the global-slot
  check that either re-initializes an already-registered container
  (lines 56-63) or injects the script element (lines 66-76, 131).
* `registerGlobal`: the remote's script executes and stores its container on
  `window[scope]`.
* `scriptLoaded` / `scriptError` / `timeoutFire`: the script element's `load`
  and `error` events and the 30-second timeout callback (lines 73-76, 78-79,
  125-129).
* `graceElapsed`: the 100 ms settle delay after `load` elapses and the
  handler searches the global slots, then either initializes the container
  and resolves, or rejects with the container-not-found error (lines 82-123);
  the source does not remove the script element on that rejection.

Settling a promise also runs the callers' continuations (they only read
immutable data, so their relative order is irrelevant): the creator's
`catch` block (cache eviction + error wrapping, lines 185-193) is the
promise's first subscriber and therefore runs before any other code can
observe the rejection, so it is folded into the settle step. -/

/-- `RemoteConfig` (ModuleFederationLoader.ts lines 20-24). -/
structure RemoteConfig where
  name : String
  url : String
  scope : Option String := none
deriving DecidableEq, Repr

/-- `scope || name` (line 144). -/
def remoteScopeOf (cfg : RemoteConfig) : String :=
  cfg.scope.getD cfg.name

/-- The cache key `` `${remoteScope}@${url}` `` (line 145). -/
def remoteKeyOf (cfg : RemoteConfig) : String :=
  remoteScopeOf cfg ++ "@" ++ cfg.url

/-- The hard timeout on the script load, in milliseconds (line 76). -/
def mfTimeoutMs : Nat := 30000

/-- The settle delay after the script's `load` event, in ms (line 82). -/
def mfGraceDelayMs : Nat := 100

/-- The errors `loadRemoteContainer`/`loadModule` can reject with, plus the
`TypeError` raised by calling a missing factory on the cache-hit path. -/
inductive MFErr where
  | timeout (url : String)
  | scriptLoad (url : String)
  | notFound (scope url : String)
  | initFail (scope msg : String)
  | moduleNotFound (path name : String)
  | factoryNotFunction
deriving DecidableEq, Repr

/-- The `.message` of each error (the `notFound` message abbreviates the
diagnostic list of searched slot names and related globals, which no claim
depends on). -/
def mfErrMessage : MFErr → String
  | .timeout url => "Timeout loading remote script: " ++ url
  | .scriptLoad url => "Failed to load remote script: " ++ url
  | .notFound scope url =>
      "Remote container " ++ scope ++ " not found after loading " ++ url
  | .initFail scope msg =>
      "Failed to initialize container " ++ scope ++ ": " ++ msg
  | .moduleNotFound path name =>
      "Module " ++ path ++ " not found in remote " ++ name
  | .factoryNotFunction => "factory is not a function"

/-- What a `loadModule` caller has observed: still awaiting, resolved with
the realized module value, or rejected with an error message. -/
inductive CallOutcome where
  | pending
  | ok (v : JsVal)
  | err (msg : String)

/-- Is an outcome still pending? -/
def CallOutcome.isPending : CallOutcome → Bool
  | .pending => true
  | _ => false

/-- Progress of one `loadRemoteContainer` promise. -/
inductive Phase where
  | start
  | negotiating
  | checkSlot
  | waitingScript
  | grace
  | doneOk (cid : Nat)
  | doneErr (e : MFErr)
deriving DecidableEq, Repr

/-- One in-flight or settled `loadRemoteContainer` promise. -/
structure LoadAttempt where
  key : String
  scope : String
  name : String
  url : String
  phase : Phase
  scriptAttached : Bool
  timeoutActive : Bool
deriving DecidableEq, Repr

/-- One `loadModule` caller: which promise it awaits, the module path it
requested, the config it passed, whether it created the cache entry
(and thus owns the `try`/`catch` of lines 158-193), and its outcome. -/
structure CallerRec where
  pid : Nat
  path : String
  name : String
  url : String
  isCreator : Bool
  outcome : CallOutcome

/-- Process-wide state outside the loader instance: the global container
slots (`window[scope]`), the container contents (module path to realized
module value), and instrumentation counters for the externally visible
effects: `__webpack_init_sharing__` invocations and completions,
`container.init` invocations, and script-element injections. -/
structure GlobalEnv where
  slots : List (String × Nat)
  containers : List (Nat × List (String × JsVal))
  negotiationCalls : Nat
  negotiationsDone : Nat
  initCalls : Nat
  injections : Nat

/-- Per-instance state of a `ModuleFederationLoader`: the
`loadedContainers` map (keyed by `remoteKey`, valued by promise id) and the
`sharingInitialized` flag (lines 27-28). -/
structure LoaderState where
  cache : List (String × Nat)
  sharingInitialized : Bool

/-- The field initializers of a freshly constructed
`ModuleFederationLoader`: empty cache, sharing not yet initialized. -/
def freshLoader : LoaderState :=
  { cache := [], sharingInitialized := false }

/-- Full machine state: loader instance, promise table, next promise id,
caller table, global environment. -/
structure MFState where
  loader : LoaderState
  attempts : List (Nat × LoadAttempt)
  nextP : Nat
  callers : List (Nat × CallerRec)
  env : GlobalEnv

/-- The machine's events (see the section comment). -/
inductive Ev where
  | call (c : Nat) (cfg : RemoteConfig) (path : String)
  | advance (p : Nat)
  | registerGlobal (scope : String) (cid : Nat)
      (content : List (String × JsVal))
  | scriptLoaded (p : Nat)
  | scriptError (p : Nat)
  | timeoutFire (p : Nat)
  | graceElapsed (p : Nat)

/-- The creator's continuation after the container promise resolves
(lines 159-193): fetch the factory, throw `Module ... not found` if it is
missing (line 164-168) — which the creator's own `catch` then wraps into
`Failed to load remote module ...` — otherwise execute it. -/
def creatorModuleStage (content : List (String × JsVal))
    (path name url : String) : CallOutcome :=
  match afind path content with
  | none => .err ("Failed to load remote module " ++ path ++ " from " ++
      name ++ " at " ++ url ++ ": " ++ mfErrMessage (.moduleNotFound path name))
  | some v => .ok v

/-- A cache-hit caller's continuation (lines 148-152): fetch the factory
and call it with no missing-factory check, so a missing factory raises the
`TypeError` of invoking `undefined`. -/
def joinerModuleStage (content : List (String × JsVal))
    (path : String) : CallOutcome :=
  match afind path content with
  | none => .err (mfErrMessage .factoryNotFunction)
  | some v => .ok v

/-- Outcome a caller observes when its promise rejects with `e`: the
creator's `catch` (lines 185-192) deletes the cache entry and rethrows a
wrapping error; a cache-hit caller has no `catch` and surfaces the
underlying rejection. -/
def outcomeOfErr (rec : CallerRec) (e : MFErr) : CallOutcome :=
  if rec.isCreator then
    .err ("Failed to load remote module " ++ rec.path ++ " from " ++
      rec.name ++ " at " ++ rec.url ++ ": " ++ mfErrMessage e)
  else
    .err (mfErrMessage e)

/-- Outcome a caller observes when its promise resolves with container
`cid` against global environment `env`. -/
def outcomeOfOk (env : GlobalEnv) (rec : CallerRec) (cid : Nat) : CallOutcome :=
  let content := (afind cid env.containers).getD []
  if rec.isCreator then creatorModuleStage content rec.path rec.name rec.url
  else joinerModuleStage content rec.path

/-- Run every still-pending caller of promise `p` through `f`. -/
def settleCallers (cs : List (Nat × CallerRec)) (p : Nat)
    (f : CallerRec → CallOutcome) : List (Nat × CallerRec) :=
  cs.map (fun cr =>
    if cr.2.pid = p ∧ (cr.2.outcome.isPending : Prop) then
      (cr.1, { cr.2 with outcome := f cr.2 })
    else cr)

/-- The creator caller of promise `p`, if any. -/
def creatorOf (cs : List (Nat × CallerRec)) (p : Nat) : Option CallerRec :=
  (cs.find? (fun cr => cr.2.pid = p ∧ (cr.2.isCreator : Prop))).map Prod.snd

/-- Settle promise `p` (attempt record `a`, already carrying any script /
timeout flag updates of the failing handler) with error `e`: mark the
attempt rejected, run the creator's `catch` (cache eviction, line 187),
and deliver outcomes to all pending callers. -/
def settleErr (s : MFState) (p : Nat) (a : LoadAttempt) (e : MFErr) : MFState :=
  { s with
    attempts := aset p { a with phase := .doneErr e } s.attempts,
    loader := { s.loader with cache := adel a.key s.loader.cache },
    callers := settleCallers s.callers p (fun rec => outcomeOfErr rec e) }

/-- Settle promise `p` successfully with container `cid`: mark the attempt
resolved, deliver outcomes; if the creator's requested factory is missing,
its thrown `Module ... not found` lands in its own `catch`, which evicts
the cache entry (lines 164-168, 185-187). -/
def settleOk (s : MFState) (p : Nat) (a : LoadAttempt) (cid : Nat) : MFState :=
  let content := (afind cid s.env.containers).getD []
  let cacheAfter :=
    match creatorOf s.callers p with
    | some rec =>
        if (afind rec.path content).isNone then adel a.key s.loader.cache
        else s.loader.cache
    | none => s.loader.cache
  { s with
    attempts := aset p { a with phase := .doneOk cid } s.attempts,
    loader := { s.loader with cache := cacheAfter },
    callers := settleCallers s.callers p (fun rec => outcomeOfOk s.env rec cid) }

/-- The slot search of the `load` handler (lines 85-87):
`window[containerKey] || window[containerKey + "_container"] ||
window[scope]`, with `containerKey = scope` (line 54). -/
def findContainerSlot (slots : List (String × Nat)) (scope : String) :
    Option Nat :=
  match afind scope slots with
  | some cid => some cid
  | none => afind (scope ++ "_container") slots

/-- One step of the machine. -/
def step (s : MFState) (e : Ev) : MFState :=
  match e with
  | .call c cfg path =>
    let key := remoteKeyOf cfg
    match afind key s.loader.cache with
    | some p =>
      let rec0 : CallerRec :=
        { pid := p, path := path, name := cfg.name, url := cfg.url,
          isCreator := false, outcome := .pending }
      let rec1 :=
        match afind p s.attempts with
        | some a =>
          match a.phase with
          | .doneOk cid => { rec0 with outcome := outcomeOfOk s.env rec0 cid }
          | .doneErr err => { rec0 with outcome := outcomeOfErr rec0 err }
          | _ => rec0
        | none => rec0
      { s with callers := aset c rec1 s.callers }
    | none =>
      let p := s.nextP
      let att : LoadAttempt :=
        { key := key, scope := remoteScopeOf cfg, name := cfg.name,
          url := cfg.url, phase := .start, scriptAttached := false,
          timeoutActive := false }
      let rec0 : CallerRec :=
        { pid := p, path := path, name := cfg.name, url := cfg.url,
          isCreator := true, outcome := .pending }
      { s with
        loader := { s.loader with cache := aset key p s.loader.cache },
        attempts := aset p att s.attempts,
        nextP := p + 1,
        callers := aset c rec0 s.callers }
  | .advance p =>
    match afind p s.attempts with
    | none => s
    | some a =>
      match a.phase with
      | .start =>
        if s.loader.sharingInitialized then
          { s with attempts := aset p { a with phase := .checkSlot } s.attempts }
        else
          { s with
            attempts := aset p { a with phase := .negotiating } s.attempts,
            env := { s.env with
              negotiationCalls := s.env.negotiationCalls + 1 } }
      | .negotiating =>
        { s with
          loader := { s.loader with sharingInitialized := true },
          attempts := aset p { a with phase := .checkSlot } s.attempts,
          env := { s.env with
            negotiationsDone := s.env.negotiationsDone + 1 } }
      | .checkSlot =>
        match afind a.scope s.env.slots with
        | some cid =>
          settleOk
            { s with env := { s.env with initCalls := s.env.initCalls + 1 } }
            p a cid
        | none =>
          let att := { a with phase := Phase.waitingScript,
                              scriptAttached := true, timeoutActive := true }
          { s with
            attempts := aset p att s.attempts,
            env := { s.env with injections := s.env.injections + 1 } }
      | _ => s
  | .registerGlobal scope cid content =>
    { s with env := { s.env with
        slots := aset scope cid s.env.slots,
        containers := aset cid content s.env.containers } }
  | .scriptLoaded p =>
    match afind p s.attempts with
    | some a =>
      if a.phase = .waitingScript then
        let att := { a with phase := Phase.grace, timeoutActive := false }
        { s with attempts := aset p att s.attempts }
      else s
    | none => s
  | .scriptError p =>
    match afind p s.attempts with
    | some a =>
      if a.phase = .waitingScript then
        settleErr s p
          { a with scriptAttached := false, timeoutActive := false }
          (.scriptLoad a.url)
      else s
    | none => s
  | .timeoutFire p =>
    match afind p s.attempts with
    | some a =>
      if a.phase = .waitingScript ∧ (a.timeoutActive : Prop) then
        settleErr s p
          { a with scriptAttached := false, timeoutActive := false }
          (.timeout a.url)
      else s
    | none => s
  | .graceElapsed p =>
    match afind p s.attempts with
    | some a =>
      if a.phase = .grace then
        match findContainerSlot s.env.slots a.scope with
        | some cid =>
          settleOk
            { s with env := { s.env with initCalls := s.env.initCalls + 1 } }
            p a cid
        | none =>
          settleErr s p a (.notFound a.scope a.url)
      else s
    | none => s

/-- Run a trace. -/
def run (s : MFState) (t : List Ev) : MFState :=
  t.foldl step s

/-- The initial state: fresh loader, no promises, no callers, empty
global environment. -/
def initMF : MFState :=
  { loader := freshLoader, attempts := [], nextP := 0, callers := [],
    env := { slots := [], containers := [], negotiationCalls := 0,
             negotiationsDone := 0, initCalls := 0, injections := 0 } }

/-- A later `PluginLoader.load` call: `loadByFramework` constructs a new
`ReactLoader` whose `mfLoader` field initializer constructs a fresh
`ModuleFederationLoader`, so the loader-instance state resets while the
browser globals (registered containers, effect counters) persist. -/
def carryGlobals (s : MFState) : MFState :=
  { initMF with env := s.env }

/-- The outcome caller `c` has observed. -/
def callerOutcome (s : MFState) (c : Nat) : CallOutcome :=
  match afind c s.callers with
  | some rec => rec.outcome
  | none => .pending

/-! ### Concrete scenarios used by the theorems below -/

/-- A remote config `{ name: "r", url: "u" }` (so `remoteKey = "r@u"`). -/
def cfgR : RemoteConfig := { name := "r", url := "u" }

/-- A second remote config with a different cache key. -/
def cfgB : RemoteConfig := { name := "b", url := "u" }

/-- The container content remote `r` registers: one exposed module. -/
def contentR : List (String × JsVal) := [("./App", .func 1)]

/-- Two concurrent `loadModule("r@u", "./App")` calls, then the load runs
(negotiation, slot check, injection) and the script errors. -/
def c1FailTrace : List Ev :=
  [.call 0 cfgR "./App", .call 1 cfgR "./App", .advance 0, .advance 0,
   .advance 0, .scriptError 0]

/-- Two concurrent `loadModule` calls with the same key, then a successful
load: the remote registers container `7` and the grace period finds it. -/
def c1DemoTrace : List Ev :=
  [.call 0 cfgR "./App", .call 1 cfgR "./App", .advance 0, .advance 0,
   .advance 0, .registerGlobal "r" 7 contentR, .scriptLoaded 0,
   .graceElapsed 0]

/-- Two concurrent first `loadModule` calls for two different keys: both
pass the `sharingInitialized` check before either negotiation completes. -/
def c2DoubleTrace : List Ev :=
  [.call 0 cfgR "./App", .call 1 cfgB "./B", .advance 0, .advance 1]

/-- A load whose script fires `load` but never registers a container: the
grace period elapses and the promise rejects with the not-found error. -/
def c3NotFoundTrace : List Ev :=
  [.call 0 cfgR "./App", .advance 0, .advance 0, .advance 0,
   .scriptLoaded 0, .graceElapsed 0]

/-- A failed load (script error) followed by a second `loadModule` call
for the same key, which succeeds: the retry re-injects the script. -/
def c4RetryTrace : List Ev :=
  [.call 0 cfgR "./App", .advance 0, .advance 0, .advance 0, .scriptError 0,
   .call 1 cfgR "./App", .advance 1, .advance 1, .advance 1,
   .registerGlobal "r" 7 contentR, .scriptLoaded 1, .graceElapsed 1]

/-- One successful `loadModule("r@u", "./App")` call. -/
def okTrace : List Ev :=
  [.call 0 cfgR "./App", .advance 0, .advance 0, .advance 0,
   .registerGlobal "r" 7 contentR, .scriptLoaded 0, .graceElapsed 0]

/-- After the successful load, a second `loadModule` call on the same
loader hits the cached container but requests an unregistered path. -/
def c8HitTrace : List Ev :=
  okTrace ++ [.call 1 cfgR "./Missing"]

/-- A second `PluginLoader.load` for the same descriptor: the fresh
`ModuleFederationLoader` misses its (empty) cache, re-negotiates, and
finds the container already on the global slot. -/
def c10SecondTrace : List Ev :=
  [.call 1 cfgR "./App", .advance 0, .advance 0, .advance 0]

/-- Final state of the two-`PluginLoader.load` scenario: first load runs
`okTrace` on a fresh loader, then a new loader (globals carried over)
runs `c10SecondTrace`. -/
def c10State : MFState :=
  run (carryGlobals (run initMF okTrace)) c10SecondTrace

/-! ### The concurrent-same-key scenario for the at-most-once-load claim

`concOk cfg0 p0 cid0 content0` restricts traces to the scenario of N
concurrent `loadModule` calls for one key against a fresh remote: every
call passes `cfg0` and `p0`; the remote registers container `cid0` with
content `content0`, which — scripts only run after their element is
injected — can happen only once a script has been injected; the grace
handler only fires once the container is registered (the scenario where
the remote does register itself); no script error and no timeout occur. -/
def concOk (cfg0 : RemoteConfig) (p0 : String) (cid0 : Nat)
    (content0 : List (String × JsVal)) (s : MFState) : Ev → Prop
  | .call _ cfg path => cfg = cfg0 ∧ path = p0
  | .advance _ => True
  | .scriptLoaded _ => True
  | .graceElapsed _ => afind (remoteScopeOf cfg0) s.env.slots = some cid0
  | .registerGlobal sc cid content =>
      sc = remoteScopeOf cfg0 ∧ cid = cid0 ∧ content = content0 ∧
        1 ≤ s.env.injections
  | .scriptError _ => False
  | .timeoutFire _ => False

/-- Traces whose every event is allowed by `A` in the state it fires in. -/
inductive GoodTrace (A : MFState → Ev → Prop) : MFState → List Ev → Prop where
  | nil {s : MFState} : GoodTrace A s []
  | cons {s : MFState} {e : Ev} {t : List Ev} :
      A s e → GoodTrace A (step s e) t → GoodTrace A s (e :: t)

/-- The single load attempt of the concurrent-same-key scenario. -/
def concAttempt (cfg0 : RemoteConfig) (ph : Phase) (att tA : Bool) :
    LoadAttempt :=
  { key := remoteKeyOf cfg0, scope := remoteScopeOf cfg0, name := cfg0.name,
    url := cfg0.url, phase := ph, scriptAttached := att, timeoutActive := tA }

/-- The machine state of the concurrent-same-key scenario, determined by
the attempt's phase, the script/timeout/remote-registered flags, the
effect counters, and the caller table. -/
def concState (cfg0 : RemoteConfig) (cid0 : Nat)
    (content0 : List (String × JsVal)) (ph : Phase)
    (att tA flag reg : Bool) (inj ini nc nd : Nat)
    (cs : List (Nat × CallerRec)) : MFState :=
  { loader := { cache := [(remoteKeyOf cfg0, 0)], sharingInitialized := flag },
    attempts := [(0, concAttempt cfg0 ph att tA)],
    nextP := 1,
    callers := cs,
    env := { slots := if reg then [(remoteScopeOf cfg0, cid0)] else [],
             containers := if reg then [(cid0, content0)] else [],
             negotiationCalls := nc, negotiationsDone := nd,
             initCalls := ini, injections := inj } }

/-- All callers await promise 0 with config `cfg0` / path `p0` and have
observed outcome `o`. -/
def callersAre (cfg0 : RemoteConfig) (p0 : String) (o : CallOutcome)
    (cs : List (Nat × CallerRec)) : Prop :=
  ∀ cr ∈ cs, cr.2.pid = 0 ∧ cr.2.path = p0 ∧ cr.2.name = cfg0.name ∧
    cr.2.url = cfg0.url ∧ cr.2.outcome = o

/-- Invariant of the concurrent-same-key scenario: the machine is in the
initial state, or it holds exactly one attempt for the key, the cache maps
the key to it, the counters are pinned by the attempt's phase (at most one
negotiation, injection and initialization ever happen), and every caller
awaits that attempt and has observed the phase-appropriate outcome. -/
def Inv1 (cfg0 : RemoteConfig) (p0 : String) (cid0 : Nat)
    (content0 : List (String × JsVal)) (v0 : JsVal) (s : MFState) : Prop :=
  s = initMF ∨
  (∃ cs, callersAre cfg0 p0 .pending cs ∧
    (s = concState cfg0 cid0 content0 .start false false false false 0 0 0 0 cs ∨
     s = concState cfg0 cid0 content0 .negotiating false false false false 0 0 1 0 cs ∨
     s = concState cfg0 cid0 content0 .checkSlot false false true false 0 0 1 1 cs)) ∨
  (∃ reg cs, callersAre cfg0 p0 .pending cs ∧
    (s = concState cfg0 cid0 content0 .waitingScript true true true reg 1 0 1 1 cs ∨
     s = concState cfg0 cid0 content0 .grace true false true reg 1 0 1 1 cs)) ∨
  (∃ cs, callersAre cfg0 p0 (.ok v0) cs ∧
    s = concState cfg0 cid0 content0 (.doneOk cid0) true false true true 1 1 1 1 cs)

/-- A caller record of the concurrent-same-key scenario. -/
def concCaller (cfg0 : RemoteConfig) (p0 : String) (isC : Bool)
    (o : CallOutcome) : CallerRec :=
  { pid := 0, path := p0, name := cfg0.name, url := cfg0.url,
    isCreator := isC, outcome := o }

/-- Negotiation-ordering invariant, over arbitrary traces: once the
sharing flag is set, a negotiation has completed; and any attempt that
has progressed past the negotiation phases can only exist with the flag
set. -/
def Inv2 (s : MFState) : Prop :=
  (s.loader.sharingInitialized = true → 1 ≤ s.env.negotiationsDone) ∧
  (∀ p a, afind p s.attempts = some a → a.phase ≠ .start →
    a.phase ≠ .negotiating → s.loader.sharingInitialized = true)

/-- An enabled catalog descriptor. -/
def pluginA : Plugin :=
  { id := "a", name := "a", route := "/a", framework := "react",
    entryUrl := "https://x/a.js", enabled := true,
    metadata := { title := "a" } }

/-- A disabled catalog descriptor. -/
def pluginB : Plugin :=
  { id := "b", name := "b", route := "/b", framework := "react",
    entryUrl := "https://x/b.js", enabled := false,
    metadata := { title := "b" } }

/-- A descriptor with an unrecognized framework tag. -/
def pluginCobol : Plugin :=
  { id := "c", name := "c", route := "/c", framework := "cobol-ui",
    entryUrl := "https://x/c.js", enabled := true,
    metadata := { title := "c" } }

/-- A misconfigured backend's response: HTTP 200 whose content type is
`text/html` but whose body happens to parse as a JSON descriptor list. -/
def htmlResp : HttpResponse :=
  { ok := true, status := 200, statusText := "OK",
    contentType := some "text/html", bodyText := "<html></html>",
    parsedJson := some [pluginA, pluginB] }

/-! ### Association-list lemmas -/

theorem afind_aset_self {κ α : Type} [DecidableEq κ] (k : κ) (v : α)
    (l : List (κ × α)) : afind k (aset k v l) = some v := by
  induction l with
  | nil => simp [aset, afind]
  | cons kv t ih =>
    obtain ⟨k', v'⟩ := kv
    by_cases h : k = k'
    · subst h; simp [aset, afind]
    · simp [aset, afind, h, ih]

theorem afind_aset_ne {κ α : Type} [DecidableEq κ] {k k' : κ} (v : α)
    (l : List (κ × α)) (h : k' ≠ k) :
    afind k' (aset k v l) = afind k' l := by
  induction l with
  | nil => simp [aset, afind, h]
  | cons kv t ih =>
    obtain ⟨k₁, v₁⟩ := kv
    by_cases h1 : k = k₁
    · subst h1; simp [aset, afind, h]
    · by_cases h2 : k' = k₁ <;> simp [aset, afind, h1, h2, ih]

theorem afind_adel_self {κ α : Type} [DecidableEq κ] (k : κ)
    (l : List (κ × α)) : afind k (adel k l) = none := by
  induction l with
  | nil => rfl
  | cons kv t ih =>
    obtain ⟨k', v'⟩ := kv
    by_cases h : k' = k
    · simp [adel, h, ih]
    · simp [adel, afind, h, ih, Ne.symm h]

theorem mem_aset {κ α : Type} [DecidableEq κ] {x : κ × α} {k : κ} {v : α}
    {l : List (κ × α)} (h : x ∈ aset k v l) : x = (k, v) ∨ x ∈ l := by
  induction l with
  | nil => simpa [aset] using h
  | cons kv t ih =>
    obtain ⟨k', v'⟩ := kv
    by_cases hk : k = k'
    · subst hk
      rw [show aset k v ((k, v') :: t) = (k, v) :: t from by simp [aset]] at h
      rcases List.mem_cons.mp h with h | h
      · exact Or.inl h
      · exact Or.inr (List.mem_cons_of_mem _ h)
    · rw [show aset k v ((k', v') :: t) = (k', v') :: aset k v t from by
        simp [aset, hk]] at h
      rcases List.mem_cons.mp h with h | h
      · exact Or.inr (by rw [h]; exact List.mem_cons_self _ _)
      · rcases ih h with h' | h'
        · exact Or.inl h'
        · exact Or.inr (List.mem_cons_of_mem _ h')

theorem afind_perm {κ α : Type} [DecidableEq κ] (k : κ)
    {l l' : List (κ × α)} (h : l.Perm l')
    (hn : (l.map Prod.fst).Nodup) : afind k l = afind k l' := by
  induction h with
  | nil => rfl
  | cons x _ ih =>
    obtain ⟨kx, vx⟩ := x
    simp only [List.map_cons, List.nodup_cons] at hn
    by_cases hk : k = kx
    · simp [afind, hk]
    · simp [afind, hk, ih hn.2]
  | swap x y t =>
    obtain ⟨kx, vx⟩ := x
    obtain ⟨ky, vy⟩ := y
    simp only [List.map_cons, List.nodup_cons, List.mem_cons] at hn
    have hxy : ky ≠ kx := fun hc => hn.1 (Or.inl hc)
    by_cases h1 : k = ky
    · subst h1
      simp [afind, hxy]
    · by_cases h2 : k = kx
      · subst h2
        simp [afind, h1, hxy.symm]
      · simp [afind, h1, h2]
  | trans h1 _ ih1 ih2 =>
    exact (ih1 hn).trans (ih2 (((h1.map Prod.fst).nodup_iff).mp hn))

/-! ### C5 / C6: component-extraction claims -/

/-- C5: component-export extraction is deterministic with fixed
precedence.  For a realized module object whose fields are (in any
insertion order) `default`, `InboxApp` and `App`, each bound to a
component function, extraction yields `default`'s value; for a module
with only `InboxApp` and requested module path `"./InboxApp"`, extraction
yields that field's value. -/
theorem c5_extraction_precedence (fields : List (String × JsVal))
    (d i a : Nat) (r : String)
    (hperm : fields.Perm
      [("default", JsVal.func d), ("InboxApp", JsVal.func i),
       ("App", JsVal.func a)]) :
    resolveReactComponent r (.obj fields) "./InboxApp" = .ok (.func d) ∧
    resolveReactComponent r (.obj [("InboxApp", JsVal.func i)])
      "./InboxApp" = .ok (.func i) := by
  have hn : (fields.map Prod.fst).Nodup := by
    refine ((hperm.map Prod.fst).nodup_iff).mpr ?_
    simp
  have hd : afind "default" fields = some (JsVal.func d) := by
    rw [afind_perm _ hperm hn]; rfl
  constructor
  · have hex : extractComponent (.obj fields) "./InboxApp" = JsVal.func d := by
      simp [extractComponent, jsTypeof, truthy, getField, hd, coalesce,
        isNullish]
    simp [resolveReactComponent, hex, truthy, jsTypeof]
  · rfl

/-- Witness for `c5_extraction_precedence` at the three-field module in
its source order. -/
theorem c5_extraction_precedence_witness :
    resolveReactComponent "k11Inbox"
      (.obj [("default", JsVal.func 1), ("InboxApp", JsVal.func 2),
             ("App", JsVal.func 3)]) "./InboxApp" = .ok (.func 1) ∧
    resolveReactComponent "k11Inbox"
      (.obj [("InboxApp", JsVal.func 2)]) "./InboxApp" = .ok (.func 2) :=
  c5_extraction_precedence _ 1 2 3 "k11Inbox" (List.Perm.refl _)

/-- C6: an extracted export that is present (truthy) but not callable and
carries a truthy `$$typeof` field — an already-rendered React element —
fails with the distinct `elementNotComponent` error (which explicitly
names the rendered-element mistake and differs from the generic
`noComponent` error); and when extraction finds nothing (a falsy
component), the failure is the `noComponent` error listing the realized
module's own field names. -/
theorem c6_shape_error_discrimination (r p : String) :
    (∀ fields e, extractComponent (.obj fields) p = e → truthy e = true →
      jsTypeof e = "object" → truthy (getField e "$$typeof") = true →
      resolveReactComponent r (.obj fields) p =
        .error (.elementNotComponent r)) ∧
    (∀ gt ks, ReactError.elementNotComponent r ≠ .noComponent gt ks) ∧
    (∀ fields, truthy (extractComponent (.obj fields) p) = false →
      resolveReactComponent r (.obj fields) p =
        .error (.noComponent "object"
          (String.intercalate ", " (fields.map Prod.fst)))) := by
  refine ⟨?_, ?_, ?_⟩
  · intro fields e hex htr hob hel
    have hnf : jsTypeof e ≠ "function" := by rw [hob]; decide
    simp [resolveReactComponent, hex, htr, hob, hel, hnf]
  · intro gt ks h
    exact ReactError.noConfusion h
  · intro fields hfalsy
    simp [resolveReactComponent, hfalsy, jsTypeof, availableKeys]

/-- Witness for `c6_shape_error_discrimination`: a module whose `default`
export is a rendered element, and a module with no matching export. -/
theorem c6_shape_error_discrimination_witness :
    resolveReactComponent "r"
      (.obj [("default", .obj [("$$typeof", .str "react.element")])])
      "./App" = .error (.elementNotComponent "r") ∧
    resolveReactComponent "r" (.obj [("somethingElse", .boolean false)])
      "./App" =
      .error (.noComponent "object" "somethingElse") := by
  have h := c6_shape_error_discrimination "r" "./App"
  refine ⟨h.1 _ (.obj [("$$typeof", .str "react.element")]) rfl rfl rfl
    (by decide), ?_⟩
  have h2 := h.2.2 [("somethingElse", .boolean false)] (by decide)
  simpa using h2

/-! ### C7: fetchPlugins claims -/

/-- C7 counterexample: the second `fetchPlugins` variant
(PluginRegistry.ts lines 113-125) does not reject a 200 response whose
content type is `text/html`; it parses the body as JSON and resolves,
so the claim that `fetchPlugins` rejects on a non-JSON content type
fails on this variant. -/
theorem c7_counterexample :
    fetchPluginsSimple htmlResp = .plugins [pluginA] ∧
    (fetchPluginsSimple htmlResp).isError = false := by
  constructor <;> decide

/-- C7 amended: the first `fetchPlugins` variant rejects on a
non-success HTTP status and on a non-JSON (or missing) content type even
with a 200 status, and on success resolves with exactly the descriptors
whose `enabled` field is true, in server-provided order; the second
variant rejects on non-success status only. -/
theorem c7_amended (resp : HttpResponse) :
    (resp.ok = false → (fetchPluginsChecked false resp).isError = true ∧
      (fetchPluginsSimple resp).isError = true) ∧
    (resp.ok = true → contentTypeNotJson resp.contentType = true →
      (fetchPluginsChecked false resp).isError = true) ∧
    (∀ l, resp.ok = true → contentTypeNotJson resp.contentType = false →
      resp.parsedJson = some l →
      fetchPluginsChecked false resp = .plugins (l.filter (·.enabled))) := by
  refine ⟨?_, ?_, ?_⟩
  · intro hok
    constructor <;> simp [fetchPluginsChecked, fetchPluginsSimple, hok,
      FetchOutcome.isError]
  · intro hok hct
    simp [fetchPluginsChecked, hok, hct, FetchOutcome.isError]
  · intro l hok hct hjson
    simp [fetchPluginsChecked, hok, hct, hjson]

/-- Witness for `c7_amended`: a 404 response, the HTML 200 response, and
a correct JSON response with one enabled and one disabled descriptor. -/
theorem c7_amended_witness :
    (fetchPluginsChecked false
      { htmlResp with ok := false, status := 404 }).isError = true ∧
    (fetchPluginsChecked false htmlResp).isError = true ∧
    fetchPluginsChecked false
      { htmlResp with contentType := some "application/json" } =
      .plugins [pluginA] := by
  refine ⟨((c7_amended _).1 rfl).1, (c7_amended _).2.1 rfl (by decide), ?_⟩
  have h := (c7_amended { htmlResp with
    contentType := some "application/json" }).2.2 [pluginA, pluginB]
    rfl (by decide) rfl
  simpa using h

/-! ### C9: unknown-framework dispatch -/

/-- C9: for every descriptor whose framework tag is none of the
recognized values (`react`, `vue`, `angular`, `html`),
`PluginLoader.loadByFramework` fails immediately with the
unsupported-framework error naming the offending value and selects no
loader — and since every fetch and every script injection in this
repository happens inside a selected loader, no network activity
occurs for that descriptor. -/
theorem c9_unknown_framework (plugin : Plugin)
    (h1 : plugin.framework ≠ "react") (h2 : plugin.framework ≠ "vue")
    (h3 : plugin.framework ≠ "angular") (h4 : plugin.framework ≠ "html") :
    loadByFramework plugin =
      .error ("Unsupported framework: " ++ plugin.framework) := by
  simp [loadByFramework, h1, h2, h3, h4]

/-- Witness for `c9_unknown_framework` at `framework := "cobol-ui"`. -/
theorem c9_unknown_framework_witness :
    loadByFramework pluginCobol = .error "Unsupported framework: cobol-ui" := by
  have h := c9_unknown_framework pluginCobol (by decide) (by decide)
    (by decide) (by decide)
  simpa using h

/-! ### C10: loader state is scoped to one PluginLoader.load call -/

/-- C10: every `PluginLoader.load` constructs a new `ReactLoader` and
thus a new `ModuleFederationLoader` (`freshLoader`: empty
`loadedContainers`, `sharingInitialized = false`), so the container cache
and the sharing flag are scoped to a single load invocation: in the
two-call scenario `c10State` (first call loads and registers the remote,
second call runs on a fresh loader with the browser globals carried
over), the second call misses the new loader's empty cache, negotiates
again (`negotiationCalls = 2`), finds the container on the global slot
without a second injection (`injections = 1`), and invokes the
container's `init` entrypoint again (`initCalls = 2`). -/
theorem c10_per_call_loader_scope :
    freshLoader.cache = [] ∧ freshLoader.sharingInitialized = false ∧
    c10State.env.injections = 1 ∧ c10State.env.initCalls = 2 ∧
    c10State.env.negotiationCalls = 2 ∧
    callerOutcome c10State 1 = .ok (.func 1) :=
  ⟨rfl, rfl, by decide, by decide, by decide, rfl⟩

/-! ### C1 counterexample: concurrent callers do not observe the same
error value -/

/-- C1 counterexample: in `c1FailTrace` two concurrent `loadModule` calls
for the same key share one failing load, but the caller that created the
cache entry observes the wrapping `Failed to load remote module ...`
error from its `catch` block while the joining caller observes the
underlying script-load rejection, so the callers do not observe the same
error. -/
theorem c1_counterexample :
    callerOutcome (run initMF c1FailTrace) 0 =
      .err "Failed to load remote module ./App from r at u: Failed to load remote script: u" ∧
    callerOutcome (run initMF c1FailTrace) 1 =
      .err "Failed to load remote script: u" ∧
    callerOutcome (run initMF c1FailTrace) 0 ≠
      callerOutcome (run initMF c1FailTrace) 1 := by
  refine ⟨rfl, rfl, fun h => ?_⟩
  have h2 : ("Failed to load remote module ./App from r at u: Failed to load remote script: u" : String) =
      "Failed to load remote script: u" := by injection h
  exact absurd h2 (by decide)

/-! ### C2: negotiation ordering -/

/-- C2 counterexample: two concurrent first `loadModule` calls for two
different keys both pass the `sharingInitialized` check before either
negotiation completes, so `__webpack_init_sharing__` is invoked twice —
the negotiation does not run exactly once under concurrent first calls. -/
theorem c2_counterexample :
    (run initMF c2DoubleTrace).env.negotiationCalls = 2 ∧
    (run initMF c2DoubleTrace).env.negotiationsDone = 0 := by
  constructor <;> decide

theorem inv2_init : Inv2 initMF := by
  constructor
  · intro hx; exact absurd hx (by decide)
  · intro p a hf _ _
    simp [initMF, afind] at hf

theorem inv2_step (s : MFState) (e : Ev) (h : Inv2 s) : Inv2 (step s e) := by
  obtain ⟨h1, h2⟩ := h
  cases e with
  | call c cfg path =>
    simp only [step]
    split
    next p hc =>
      exact ⟨h1, fun q a hf hs hn => h2 q a hf hs hn⟩
    next hc =>
      refine ⟨h1, ?_⟩
      intro q a hf hs hn
      by_cases hq : q = s.nextP
      · subst hq
        rw [afind_aset_self] at hf
        injection hf with hf
        rw [← hf] at hs
        exact absurd rfl hs
      · rw [afind_aset_ne _ _ hq] at hf
        exact h2 q a hf hs hn
  | advance q =>
    simp only [step]
    split
    next hf => exact ⟨h1, h2⟩
    next a hf =>
      split
      next hph =>
        split
        next hfl =>
          exact ⟨h1, fun r b _ _ _ => hfl⟩
        next hfl =>
          refine ⟨fun hx => h1 hx, ?_⟩
          intro r b hfb hbs hbn
          by_cases hr : r = q
          · subst hr
            rw [afind_aset_self] at hfb
            injection hfb with hfb
            rw [← hfb] at hbn
            exact absurd rfl hbn
          · exact h2 r b (by rwa [afind_aset_ne _ _ hr] at hfb) hbs hbn
      next hph =>
        exact ⟨fun _ => Nat.succ_le_succ (Nat.zero_le _), fun r b _ _ _ => rfl⟩
      next hph =>
        have hflag : s.loader.sharingInitialized = true :=
          h2 q a hf (by simp [hph]) (by simp [hph])
        split
        next cid hslot => exact ⟨fun hx => h1 hx, fun r b _ _ _ => hflag⟩
        next hslot => exact ⟨fun hx => h1 hx, fun r b _ _ _ => hflag⟩
      next x hx1 hx2 hx3 => exact ⟨h1, h2⟩
  | registerGlobal sc cid content =>
    exact ⟨h1, h2⟩
  | scriptLoaded q =>
    simp only [step]
    split
    next a hf =>
      split
      next hph =>
        have hflag : s.loader.sharingInitialized = true :=
          h2 q a hf (by simp [hph]) (by simp [hph])
        exact ⟨fun hx => h1 hx, fun r b _ _ _ => hflag⟩
      next hph => exact ⟨h1, h2⟩
    next hf => exact ⟨h1, h2⟩
  | scriptError q =>
    simp only [step]
    split
    next a hf =>
      split
      next hph =>
        have hflag : s.loader.sharingInitialized = true :=
          h2 q a hf (by simp [hph]) (by simp [hph])
        exact ⟨fun hx => h1 hx, fun r b _ _ _ => hflag⟩
      next hph => exact ⟨h1, h2⟩
    next hf => exact ⟨h1, h2⟩
  | timeoutFire q =>
    simp only [step]
    split
    next a hf =>
      split
      next hcond =>
        have hflag : s.loader.sharingInitialized = true :=
          h2 q a hf (by simp [hcond.1]) (by simp [hcond.1])
        exact ⟨fun hx => h1 hx, fun r b _ _ _ => hflag⟩
      next hcond => exact ⟨h1, h2⟩
    next hf => exact ⟨h1, h2⟩
  | graceElapsed q =>
    simp only [step]
    split
    next a hf =>
      split
      next hph =>
        have hflag : s.loader.sharingInitialized = true :=
          h2 q a hf (by simp [hph]) (by simp [hph])
        split
        next cid hslot => exact ⟨fun hx => h1 hx, fun r b _ _ _ => hflag⟩
        next hslot => exact ⟨fun hx => h1 hx, fun r b _ _ _ => hflag⟩
      next hph => exact ⟨h1, h2⟩
    next hf => exact ⟨h1, h2⟩

theorem inv2_run_from (t : List Ev) : ∀ s, Inv2 s → Inv2 (run s t) := by
  induction t with
  | nil => intro s h; exact h
  | cons e t ih => intro s h; exact ih _ (inv2_step s e h)

theorem initCalls_growth_needs_negotiation (s : MFState) (e : Ev)
    (hinv : Inv2 s)
    (hlt : s.env.initCalls < (step s e).env.initCalls) :
    1 ≤ s.env.negotiationsDone := by
  obtain ⟨h1, h2⟩ := hinv
  cases e with
  | call c cfg path =>
    exfalso
    cases hc : afind (remoteKeyOf cfg) s.loader.cache <;>
      simp [step, hc] at hlt
  | advance q =>
    cases hf : afind q s.attempts with
    | none => exfalso; simp [step, hf] at hlt
    | some a =>
      cases hph : a.phase with
      | start =>
        exfalso
        by_cases hfl : s.loader.sharingInitialized = true <;>
          simp [step, hf, hph, hfl] at hlt
      | negotiating => exfalso; simp [step, hf, hph] at hlt
      | checkSlot =>
        exact h1 (h2 q a hf (by simp [hph]) (by simp [hph]))
      | waitingScript => exfalso; simp [step, hf, hph] at hlt
      | grace => exfalso; simp [step, hf, hph] at hlt
      | doneOk cid => exfalso; simp [step, hf, hph] at hlt
      | doneErr err => exfalso; simp [step, hf, hph] at hlt
  | registerGlobal sc cid content => exfalso; simp [step] at hlt
  | scriptLoaded q =>
    exfalso
    cases hf : afind q s.attempts with
    | none => simp [step, hf] at hlt
    | some a =>
      by_cases hph : a.phase = .waitingScript <;> simp [step, hf, hph] at hlt
  | scriptError q =>
    exfalso
    cases hf : afind q s.attempts with
    | none => simp [step, hf] at hlt
    | some a =>
      by_cases hph : a.phase = .waitingScript <;>
        simp [step, hf, hph, settleErr] at hlt
  | timeoutFire q =>
    exfalso
    cases hf : afind q s.attempts with
    | none => simp [step, hf] at hlt
    | some a =>
      by_cases hcond : a.phase = .waitingScript ∧ (a.timeoutActive : Prop)
      · simp [step, hf, if_pos hcond, settleErr] at hlt
      · simp [step, hf, if_neg hcond] at hlt
  | graceElapsed q =>
    cases hf : afind q s.attempts with
    | none => exfalso; simp [step, hf] at hlt
    | some a =>
      by_cases hph : a.phase = .grace
      · exact h1 (h2 q a hf (by simp [hph]) (by simp [hph]))
      · exfalso; simp [step, hf, hph] at hlt

theorem negotiation_noop_after_flag (s : MFState) (e : Ev)
    (hfl : s.loader.sharingInitialized = true) :
    (step s e).env.negotiationCalls = s.env.negotiationCalls := by
  cases e with
  | call c cfg path =>
    cases hc : afind (remoteKeyOf cfg) s.loader.cache <;> simp [step, hc]
  | advance q =>
    cases hf : afind q s.attempts with
    | none => simp [step, hf]
    | some a =>
      cases hph : a.phase with
      | start => simp [step, hf, hph, hfl]
      | negotiating => simp [step, hf, hph]
      | checkSlot =>
        cases hslot : afind a.scope s.env.slots <;>
          simp [step, hf, hph, hslot, settleOk]
      | waitingScript => simp [step, hf, hph]
      | grace => simp [step, hf, hph]
      | doneOk cid => simp [step, hf, hph]
      | doneErr err => simp [step, hf, hph]
  | registerGlobal sc cid content => simp [step]
  | scriptLoaded q =>
    cases hf : afind q s.attempts with
    | none => simp [step, hf]
    | some a =>
      by_cases hph : a.phase = .waitingScript <;> simp [step, hf, hph]
  | scriptError q =>
    cases hf : afind q s.attempts with
    | none => simp [step, hf]
    | some a =>
      by_cases hph : a.phase = .waitingScript <;>
        simp [step, hf, hph, settleErr]
  | timeoutFire q =>
    cases hf : afind q s.attempts with
    | none => simp [step, hf]
    | some a =>
      by_cases hcond : a.phase = .waitingScript ∧ (a.timeoutActive : Prop)
      · simp [step, hf, if_pos hcond, settleErr]
      · simp [step, hf, if_neg hcond]
  | graceElapsed q =>
    cases hf : afind q s.attempts with
    | none => simp [step, hf]
    | some a =>
      by_cases hph : a.phase = .grace
      · cases hslot : findContainerSlot s.env.slots a.scope <;>
          simp [step, hf, hph, hslot, settleOk, settleErr]
      · simp [step, hf, hph]

/-- C2 amended: in every reachable state, any step that invokes a
container's `init` entrypoint (increments `initCalls`) happens only
after a shared-scope negotiation has completed
(`negotiationsDone ≥ 1`), and once the loader's `sharingInitialized`
flag is set no step invokes `__webpack_init_sharing__` again
(`negotiationCalls` is unchanged) — the negotiation is a no-op for
every call that starts after a negotiation completed.  (As
`c2_counterexample` shows, two loads that both start while the first
negotiation is still in flight each invoke the negotiation primitive,
so "runs once" holds only among calls that do not race the first
negotiation.) -/
theorem c2_amended (t : List Ev) (e : Ev) :
    ((run initMF t).env.initCalls < (step (run initMF t) e).env.initCalls →
      1 ≤ (run initMF t).env.negotiationsDone) ∧
    ((run initMF t).loader.sharingInitialized = true →
      (step (run initMF t) e).env.negotiationCalls =
        (run initMF t).env.negotiationCalls) :=
  ⟨fun hlt => initCalls_growth_needs_negotiation _ e
      (inv2_run_from t initMF inv2_init) hlt,
   fun hfl => negotiation_noop_after_flag _ e hfl⟩

/-- Witness for `c2_amended`: the successful-load trace just before its
container initialization (`graceElapsed`), where the initialization step
does increment `initCalls`; and the same state's `sharingInitialized`
flag is set, so a further `advance` performs no negotiation call. -/
theorem c2_amended_witness :
    1 ≤ (run initMF (okTrace.take 6)).env.negotiationsDone ∧
    (step (run initMF (okTrace.take 6)) (Ev.advance 0)).env.negotiationCalls =
      (run initMF (okTrace.take 6)).env.negotiationCalls :=
  ⟨(c2_amended (okTrace.take 6) (Ev.graceElapsed 0)).1 (by decide),
   (c2_amended (okTrace.take 6) (Ev.advance 0)).2 (by decide)⟩

/-! ### C3: script-element cleanup on failure paths -/

/-- C3 counterexample: in `c3NotFoundTrace` the script loads but no
container is registered; after the grace period the load rejects with the
container-not-found error, yet the injected script element is still
attached (`scriptAttached = true`) — the not-found failure path does not
remove the script element. -/
theorem c3_counterexample :
    ((afind 0 (run initMF c3NotFoundTrace).attempts).map
      (fun a => a.scriptAttached)) = some true ∧
    ((afind 0 (run initMF c3NotFoundTrace).attempts).map
      (fun a => a.phase)) = some (.doneErr (.notFound "r" "u")) := by
  constructor <;> decide

/-- C3 amended: the timeout and script-error failure paths do remove the
injected script element: for any in-flight script wait, the 30-second
timeout (`mfTimeoutMs = 30000`) rejects with the timeout error and
detaches the script, and a script `error` event rejects with the
load-failure error and detaches the script.  (The container-not-found
path, by `c3_counterexample`, leaves the element attached.) -/
theorem c3_amended (s : MFState) (p : Nat) (a : LoadAttempt)
    (hf : afind p s.attempts = some a) (hph : a.phase = .waitingScript) :
    mfTimeoutMs = 30000 ∧
    (a.timeoutActive = true →
      afind p ((step s (.timeoutFire p)).attempts) =
        some { a with
               phase := .doneErr (.timeout a.url),
               scriptAttached := false,
               timeoutActive := false }) ∧
    afind p ((step s (.scriptError p)).attempts) =
      some { a with
             phase := .doneErr (.scriptLoad a.url),
             scriptAttached := false,
             timeoutActive := false } := by
  refine ⟨rfl, ?_, ?_⟩
  · intro hta
    simp only [step, hf, if_pos (And.intro hph hta), settleErr]
    rw [afind_aset_self]
  · simp only [step, hf, hph, if_true, settleErr]
    rw [afind_aset_self]

/-- Witness for `c3_amended` at the state of a pending script wait. -/
theorem c3_amended_witness :
    mfTimeoutMs = 30000 ∧
    afind 0 ((step (run initMF (okTrace.take 4))
        (Ev.timeoutFire 0)).attempts) =
      some { key := "r@u", scope := "r", name := "r", url := "u",
             phase := .doneErr (.timeout "u"), scriptAttached := false,
             timeoutActive := false } ∧
    afind 0 ((step (run initMF (okTrace.take 4))
        (Ev.scriptError 0)).attempts) =
      some { key := "r@u", scope := "r", name := "r", url := "u",
             phase := .doneErr (.scriptLoad "u"), scriptAttached := false,
             timeoutActive := false } := by
  have h := c3_amended (run initMF (okTrace.take 4)) 0
    { key := "r@u", scope := "r", name := "r", url := "u",
      phase := .waitingScript, scriptAttached := true, timeoutActive := true }
    (by decide) rfl
  exact ⟨h.1, h.2.1 rfl, h.2.2⟩

/-! ### C4: retry after failure -/

/-- C4: a failing load evicts its cache entry (any script-error settle
removes the attempt's key from `loadedContainers`), so a subsequent
`loadModule` call for the same key misses the cache and creates a fresh
load attempt in its initial phase rather than replaying the old
rejection; concretely, in `c4RetryTrace` a script-error failure is
followed by a second call that re-injects the script
(`injections = 2`) and resolves with the module while the first caller
keeps the original failure. -/
theorem c4_retry_after_failure :
    (∀ s p a, afind p s.attempts = some a → a.phase = .waitingScript →
      afind a.key ((step s (.scriptError p)).loader.cache) = none) ∧
    (∀ s c cfg path, afind (remoteKeyOf cfg) s.loader.cache = none →
      afind (remoteKeyOf cfg) ((step s (.call c cfg path)).loader.cache) =
        some s.nextP ∧
      afind s.nextP ((step s (.call c cfg path)).attempts) =
        some { key := remoteKeyOf cfg, scope := remoteScopeOf cfg,
               name := cfg.name, url := cfg.url, phase := .start,
               scriptAttached := false, timeoutActive := false }) ∧
    ((run initMF c4RetryTrace).env.injections = 2 ∧
      callerOutcome (run initMF c4RetryTrace) 1 = .ok (.func 1) ∧
      callerOutcome (run initMF c4RetryTrace) 0 =
        .err "Failed to load remote module ./App from r at u: Failed to load remote script: u") := by
  refine ⟨?_, ?_, by decide, rfl, rfl⟩
  · intro s p a hf hph
    simp only [step, hf, hph, if_true, settleErr]
    exact afind_adel_self _ _
  · intro s c cfg path hc
    simp only [step, hc]
    exact ⟨afind_aset_self _ _ _, afind_aset_self _ _ _⟩

/-- Witness for `c4_retry_after_failure`: the script-error settle after
`okTrace.take 4` evicts key `r@u`, and a call on the empty initial cache
creates attempt `0` in phase `start`. -/
theorem c4_retry_after_failure_witness :
    afind "r@u" ((step (run initMF (okTrace.take 4))
      (Ev.scriptError 0)).loader.cache) = none ∧
    afind (remoteKeyOf cfgR)
      ((step initMF (Ev.call 0 cfgR "./App")).loader.cache) = some 0 := by
  constructor
  · have h := (c4_retry_after_failure.1) (run initMF (okTrace.take 4)) 0
      { key := "r@u", scope := "r", name := "r", url := "u",
        phase := .waitingScript, scriptAttached := true,
        timeoutActive := true } (by decide) rfl
    simpa using h
  · exact ((c4_retry_after_failure.2.1) initMF 0 cfgR "./App" (by decide)).1

/-! ### C8: missing-factory behavior on creator vs cache-hit calls -/

/-- C8 counterexample: after the successful load of `okTrace`, a second
`loadModule` call on the same loader hits the cached container promise
and requests the unregistered path `./Missing`; it fails with the
`TypeError` of invoking a missing factory, not with the
module-not-found error (raw or wrapped). -/
theorem c8_counterexample :
    callerOutcome (run initMF c8HitTrace) 1 =
      .err "factory is not a function" ∧
    "factory is not a function" ≠
      mfErrMessage (.moduleNotFound "./Missing" "r") ∧
    "factory is not a function" ≠
      "Failed to load remote module ./Missing from r at u: Module ./Missing not found in remote r" := by
  refine ⟨rfl, by decide, by decide⟩

/-- C8 amended: only the call that creates the cache entry checks the
factory: a creator requesting a path with no registered factory fails
with the module-not-found error (wrapped by its `catch` into the
`Failed to load remote module ...` message), while a cache-hit caller
performs no check and fails with the `TypeError` of calling `undefined`. -/
theorem c8_amended (content : List (String × JsVal)) (path name url : String)
    (h : afind path content = none) :
    creatorModuleStage content path name url =
      .err ("Failed to load remote module " ++ path ++ " from " ++ name ++
        " at " ++ url ++ ": " ++ mfErrMessage (.moduleNotFound path name)) ∧
    joinerModuleStage content path = .err "factory is not a function" := by
  constructor
  · simp [creatorModuleStage, h]
  · simp [joinerModuleStage, h, mfErrMessage]

/-- Witness for `c8_amended` at the registered container content of the
scenarios, requesting the unregistered path `./Missing`. -/
theorem c8_amended_witness :
    creatorModuleStage contentR "./Missing" "r" "u" =
      .err ("Failed to load remote module ./Missing from r at u: " ++
        mfErrMessage (.moduleNotFound "./Missing" "r")) ∧
    joinerModuleStage contentR "./Missing" =
      .err "factory is not a function" := by
  have h := c8_amended contentR "./Missing" "r" "u" rfl
  exact ⟨by rw [h.1]; rfl, h.2⟩

/-! ### C1: at-most-once load for concurrent same-key calls -/

theorem callersAre_empty (cfg0 : RemoteConfig) (p0 : String)
    (o : CallOutcome) : callersAre cfg0 p0 o [] := by
  intro cr hmem
  exact absurd hmem (List.not_mem_nil cr)

theorem callersAre_aset {cfg0 : RemoteConfig} {p0 : String} {o : CallOutcome}
    {cs : List (Nat × CallerRec)} (hcs : callersAre cfg0 p0 o cs)
    (c : Nat) (rec : CallerRec) (h0 : rec.pid = 0) (h1 : rec.path = p0)
    (h2 : rec.name = cfg0.name) (h3 : rec.url = cfg0.url)
    (h4 : rec.outcome = o) : callersAre cfg0 p0 o (aset c rec cs) := by
  intro cr hmem
  rcases mem_aset hmem with h | h
  · rw [h]
    exact ⟨h0, h1, h2, h3, h4⟩
  · exact hcs cr h

theorem callersAre_settle {cfg0 : RemoteConfig} {p0 : String}
    {cs : List (Nat × CallerRec)} (hcs : callersAre cfg0 p0 .pending cs)
    {f : CallerRec → CallOutcome} {o : CallOutcome}
    (hf : ∀ rec : CallerRec, rec.pid = 0 → rec.path = p0 →
      rec.name = cfg0.name → rec.url = cfg0.url →
      rec.outcome = .pending → f rec = o) :
    callersAre cfg0 p0 o (settleCallers cs 0 f) := by
  intro cr hmem
  unfold settleCallers at hmem
  rcases List.mem_map.mp hmem with ⟨cr', hmem', heq⟩
  obtain ⟨k0, k1, k2, k3, k4⟩ := hcs cr' hmem'
  rw [if_pos ⟨k0, by rw [k4]; rfl⟩] at heq
  rw [← heq]
  exact ⟨k0, k1, k2, k3, hf cr'.2 k0 k1 k2 k3 k4⟩

theorem creatorOf_cache {cfg0 : RemoteConfig} {p0 : String} {v0 : JsVal}
    {content0 : List (String × JsVal)} {cs : List (Nat × CallerRec)}
    (hcs : callersAre cfg0 p0 .pending cs)
    (hv : afind p0 content0 = some v0) (key : String)
    (cache : List (String × Nat)) :
    (match creatorOf cs 0 with
     | some rec => if (afind rec.path content0).isNone then adel key cache
                   else cache
     | none => cache) = cache := by
  cases hfind : creatorOf cs 0 with
  | none => rfl
  | some rec =>
    unfold creatorOf at hfind
    rcases Option.map_eq_some'.mp hfind with ⟨pr, hpr, hpr2⟩
    have hmem := List.mem_of_find?_eq_some hpr
    obtain ⟨-, k1, -, -, -⟩ := hcs pr hmem
    rw [← hpr2]
    show (if (afind pr.2.path content0).isNone = true then adel key cache
          else cache) = cache
    rw [k1, hv]
    simp

theorem inv1_step {cfg0 : RemoteConfig} {p0 : String} {cid0 : Nat}
    {content0 : List (String × JsVal)} {v0 : JsVal}
    (hv : afind p0 content0 = some v0) (s : MFState) (e : Ev)
    (hA : concOk cfg0 p0 cid0 content0 s e)
    (hinv : Inv1 cfg0 p0 cid0 content0 v0 s) :
    Inv1 cfg0 p0 cid0 content0 v0 (step s e) := by
  rcases hinv with hs | ⟨cs, hcs, hs | hs | hs⟩ | ⟨reg, cs, hcs, hs | hs⟩ |
    ⟨cs, hcs, hs⟩ <;> subst hs
  -- state: initMF
  · cases e with
    | call c cfg path =>
      obtain ⟨hcfg, hpath⟩ := hA
      rw [hcfg, hpath]
      refine Or.inr (Or.inl ⟨aset c (concCaller cfg0 p0 true .pending) [],
        callersAre_aset (callersAre_empty cfg0 p0 _) c _ rfl rfl rfl rfl rfl,
        Or.inl ?_⟩)
      rfl
    | advance q => exact Or.inl rfl
    | registerGlobal sc cid content =>
      exact absurd hA.2.2.2 (by simp [initMF])
    | scriptLoaded q => exact Or.inl rfl
    | scriptError q => exact hA.elim
    | timeoutFire q => exact hA.elim
    | graceElapsed q =>
      simp [concOk, initMF, afind] at hA
  -- state: start
  · cases e with
    | call c cfg path =>
      obtain ⟨hcfg, hpath⟩ := hA
      rw [hcfg, hpath]
      refine Or.inr (Or.inl ⟨aset c (concCaller cfg0 p0 false .pending) cs,
        callersAre_aset hcs c _ rfl rfl rfl rfl rfl, Or.inl ?_⟩)
      simp [step, concState, concAttempt, concCaller, afind]
    | advance q =>
      by_cases hq : q = 0
      · subst hq
        refine Or.inr (Or.inl ⟨cs, hcs, Or.inr (Or.inl ?_)⟩)
        simp [step, concState, concAttempt, afind, aset]
      · refine Or.inr (Or.inl ⟨cs, hcs, Or.inl ?_⟩)
        simp [step, concState, concAttempt, afind, hq]
    | registerGlobal sc cid content =>
      exact absurd hA.2.2.2 (by simp [concState])
    | scriptLoaded q =>
      refine Or.inr (Or.inl ⟨cs, hcs, Or.inl ?_⟩)
      by_cases hq : q = 0 <;>
        simp [step, concState, concAttempt, afind, hq]
    | scriptError q => exact hA.elim
    | timeoutFire q => exact hA.elim
    | graceElapsed q =>
      simp [concOk, concState, afind] at hA
  -- state: negotiating
  · cases e with
    | call c cfg path =>
      obtain ⟨hcfg, hpath⟩ := hA
      rw [hcfg, hpath]
      refine Or.inr (Or.inl ⟨aset c (concCaller cfg0 p0 false .pending) cs,
        callersAre_aset hcs c _ rfl rfl rfl rfl rfl,
        Or.inr (Or.inl ?_)⟩)
      simp [step, concState, concAttempt, concCaller, afind]
    | advance q =>
      by_cases hq : q = 0
      · subst hq
        refine Or.inr (Or.inl ⟨cs, hcs, Or.inr (Or.inr ?_)⟩)
        simp [step, concState, concAttempt, afind, aset]
      · refine Or.inr (Or.inl ⟨cs, hcs, Or.inr (Or.inl ?_)⟩)
        simp [step, concState, concAttempt, afind, hq]
    | registerGlobal sc cid content =>
      exact absurd hA.2.2.2 (by simp [concState])
    | scriptLoaded q =>
      refine Or.inr (Or.inl ⟨cs, hcs, Or.inr (Or.inl ?_)⟩)
      by_cases hq : q = 0 <;>
        simp [step, concState, concAttempt, afind, hq]
    | scriptError q => exact hA.elim
    | timeoutFire q => exact hA.elim
    | graceElapsed q =>
      simp [concOk, concState, afind] at hA
  -- state: checkSlot
  · cases e with
    | call c cfg path =>
      obtain ⟨hcfg, hpath⟩ := hA
      rw [hcfg, hpath]
      refine Or.inr (Or.inl ⟨aset c (concCaller cfg0 p0 false .pending) cs,
        callersAre_aset hcs c _ rfl rfl rfl rfl rfl,
        Or.inr (Or.inr ?_)⟩)
      simp [step, concState, concAttempt, concCaller, afind]
    | advance q =>
      by_cases hq : q = 0
      · subst hq
        refine Or.inr (Or.inr (Or.inl ⟨false, cs, hcs, Or.inl ?_⟩))
        simp [step, concState, concAttempt, afind, aset]
      · refine Or.inr (Or.inl ⟨cs, hcs, Or.inr (Or.inr ?_)⟩)
        simp [step, concState, concAttempt, afind, hq]
    | registerGlobal sc cid content =>
      exact absurd hA.2.2.2 (by simp [concState])
    | scriptLoaded q =>
      refine Or.inr (Or.inl ⟨cs, hcs, Or.inr (Or.inr ?_)⟩)
      by_cases hq : q = 0 <;>
        simp [step, concState, concAttempt, afind, hq]
    | scriptError q => exact hA.elim
    | timeoutFire q => exact hA.elim
    | graceElapsed q =>
      simp [concOk, concState, afind] at hA
  -- state: waitingScript (reg arbitrary)
  · cases e with
    | call c cfg path =>
      obtain ⟨hcfg, hpath⟩ := hA
      rw [hcfg, hpath]
      refine Or.inr (Or.inr (Or.inl ⟨reg,
        aset c (concCaller cfg0 p0 false .pending) cs,
        callersAre_aset hcs c _ rfl rfl rfl rfl rfl, Or.inl ?_⟩))
      simp [step, concState, concAttempt, concCaller, afind]
    | advance q =>
      refine Or.inr (Or.inr (Or.inl ⟨reg, cs, hcs, Or.inl ?_⟩))
      by_cases hq : q = 0 <;>
        simp [step, concState, concAttempt, afind, hq]
    | registerGlobal sc cid content =>
      obtain ⟨hsc, hcid, hcont, -⟩ := hA
      rw [hsc, hcid, hcont]
      refine Or.inr (Or.inr (Or.inl ⟨true, cs, hcs, Or.inl ?_⟩))
      cases reg <;>
        simp [step, concState, concAttempt, aset]
    | scriptLoaded q =>
      by_cases hq : q = 0
      · subst hq
        refine Or.inr (Or.inr (Or.inl ⟨reg, cs, hcs, Or.inr ?_⟩))
        simp [step, concState, concAttempt, afind, aset]
      · refine Or.inr (Or.inr (Or.inl ⟨reg, cs, hcs, Or.inl ?_⟩))
        simp [step, concState, concAttempt, afind, hq]
    | scriptError q => exact hA.elim
    | timeoutFire q => exact hA.elim
    | graceElapsed q =>
      cases reg with
      | false => simp [concOk, concState, afind] at hA
      | true =>
        refine Or.inr (Or.inr (Or.inl ⟨true, cs, hcs, Or.inl ?_⟩))
        by_cases hq : q = 0 <;>
          simp [step, concState, concAttempt, afind, hq]
  -- state: grace (reg arbitrary)
  · cases e with
    | call c cfg path =>
      obtain ⟨hcfg, hpath⟩ := hA
      rw [hcfg, hpath]
      refine Or.inr (Or.inr (Or.inl ⟨reg,
        aset c (concCaller cfg0 p0 false .pending) cs,
        callersAre_aset hcs c _ rfl rfl rfl rfl rfl, Or.inr ?_⟩))
      simp [step, concState, concAttempt, concCaller, afind]
    | advance q =>
      refine Or.inr (Or.inr (Or.inl ⟨reg, cs, hcs, Or.inr ?_⟩))
      by_cases hq : q = 0 <;>
        simp [step, concState, concAttempt, afind, hq]
    | registerGlobal sc cid content =>
      obtain ⟨hsc, hcid, hcont, -⟩ := hA
      rw [hsc, hcid, hcont]
      refine Or.inr (Or.inr (Or.inl ⟨true, cs, hcs, Or.inr ?_⟩))
      cases reg <;>
        simp [step, concState, concAttempt, aset]
    | scriptLoaded q =>
      refine Or.inr (Or.inr (Or.inl ⟨reg, cs, hcs, Or.inr ?_⟩))
      by_cases hq : q = 0 <;>
        simp [step, concState, concAttempt, afind, hq]
    | scriptError q => exact hA.elim
    | timeoutFire q => exact hA.elim
    | graceElapsed q =>
      cases reg with
      | false => simp [concOk, concState, afind] at hA
      | true =>
        by_cases hq : q = 0
        · subst hq
          refine Or.inr (Or.inr (Or.inr
            ⟨settleCallers cs 0 (fun rec => outcomeOfOk
              { slots := [(remoteScopeOf cfg0, cid0)],
                containers := [(cid0, content0)], negotiationCalls := 1,
                negotiationsDone := 1, initCalls := 1, injections := 1 }
              rec cid0), ?_, ?_⟩))
          · refine callersAre_settle hcs ?_
            intro rec k0 k1 k2 k3 k4
            cases hcr : rec.isCreator <;>
              simp [outcomeOfOk, afind, k1, k2, k3, hcr,
                creatorModuleStage, joinerModuleStage, hv]
          · simp [step, settleOk, findContainerSlot, concState, concAttempt,
              afind, aset]
            cases hfind : creatorOf cs 0 with
            | none => rfl
            | some rec =>
              unfold creatorOf at hfind
              rcases Option.map_eq_some'.mp hfind with ⟨pr, hpr, hpr2⟩
              obtain ⟨-, k1, -, -, -⟩ := hcs pr (List.mem_of_find?_eq_some hpr)
              rw [← hpr2]
              show (if (afind pr.2.path
                  ((if cid0 = cid0 then some content0 else none).getD
                    [])).isNone = true then
                  adel (remoteKeyOf cfg0) [(remoteKeyOf cfg0, 0)]
                else [(remoteKeyOf cfg0, 0)]) = [(remoteKeyOf cfg0, 0)]
              rw [k1]
              simp [hv]
        · refine Or.inr (Or.inr (Or.inl ⟨true, cs, hcs, Or.inr ?_⟩))
          simp [step, concState, concAttempt, afind, hq]
  -- state: doneOk
  · cases e with
    | call c cfg path =>
      obtain ⟨hcfg, hpath⟩ := hA
      rw [hcfg, hpath]
      refine Or.inr (Or.inr (Or.inr
        ⟨aset c { concCaller cfg0 p0 false .pending with
            outcome := outcomeOfOk
              { slots := [(remoteScopeOf cfg0, cid0)],
                containers := [(cid0, content0)], negotiationCalls := 1,
                negotiationsDone := 1, initCalls := 1, injections := 1 }
              (concCaller cfg0 p0 false .pending) cid0 } cs, ?_, ?_⟩))
      · refine callersAre_aset hcs c _ rfl rfl rfl rfl ?_
        simp [outcomeOfOk, concCaller, afind, joinerModuleStage, hv]
      · simp [step, concState, concAttempt, concCaller, afind]
    | advance q =>
      refine Or.inr (Or.inr (Or.inr ⟨cs, hcs, ?_⟩))
      by_cases hq : q = 0 <;>
        simp [step, concState, concAttempt, afind, hq]
    | registerGlobal sc cid content =>
      obtain ⟨hsc, hcid, hcont, -⟩ := hA
      rw [hsc, hcid, hcont]
      refine Or.inr (Or.inr (Or.inr ⟨cs, hcs, ?_⟩))
      simp [step, concState, concAttempt, aset]
    | scriptLoaded q =>
      refine Or.inr (Or.inr (Or.inr ⟨cs, hcs, ?_⟩))
      by_cases hq : q = 0 <;>
        simp [step, concState, concAttempt, afind, hq]
    | scriptError q => exact hA.elim
    | timeoutFire q => exact hA.elim
    | graceElapsed q =>
      refine Or.inr (Or.inr (Or.inr ⟨cs, hcs, ?_⟩))
      by_cases hq : q = 0 <;>
        simp [step, concState, concAttempt, afind, hq]

theorem inv1_run {cfg0 : RemoteConfig} {p0 : String} {cid0 : Nat}
    {content0 : List (String × JsVal)} {v0 : JsVal}
    (hv : afind p0 content0 = some v0) (t : List Ev) :
    ∀ s, Inv1 cfg0 p0 cid0 content0 v0 s →
      GoodTrace (concOk cfg0 p0 cid0 content0) s t →
      Inv1 cfg0 p0 cid0 content0 v0 (run s t) := by
  induction t with
  | nil => intro s h _; exact h
  | cons e t ih =>
    intro s h hg
    cases hg with
    | cons hA hg2 => exact ih _ (inv1_step hv s e hA h) hg2

/-- C1 amended: for every trace in which any number of `loadModule`
calls for the same `remoteName@entryUrl` key are interleaved arbitrarily
with the asynchronous phases of the container load (scenario `concOk`:
the remote registers its container only after a script has been
injected, the grace handler fires once it is registered, and the script
neither errors nor times out), if the load attempt has completed,
then exactly one script injection, exactly one container-initialization
call and exactly one negotiation call have occurred, and every caller
observes the same realized module value.  This holds because
`loadedContainers.set` executes in the same synchronous segment as the
cache check, so every later call joins promise `0`.  The claim's further
assertion that on failure all callers observe the same error is refuted
by `c1_counterexample`: the creator's `catch` wraps the shared rejection
while joiners surface it unchanged. -/
theorem c1_amended (cfg0 : RemoteConfig) (p0 : String) (cid0 : Nat)
    (content0 : List (String × JsVal)) (v0 : JsVal)
    (hv : afind p0 content0 = some v0) (t : List Ev)
    (hg : GoodTrace (concOk cfg0 p0 cid0 content0) initMF t)
    (a : LoadAttempt) (ha : afind 0 (run initMF t).attempts = some a)
    (hdone : a.phase = .doneOk cid0) :
    (run initMF t).env.injections = 1 ∧
    (run initMF t).env.initCalls = 1 ∧
    (run initMF t).env.negotiationCalls = 1 ∧
    ∀ cr ∈ (run initMF t).callers, cr.2.outcome = .ok v0 := by
  have hinv := inv1_run hv t initMF (Or.inl rfl) hg
  rcases hinv with hs | ⟨cs, hcs, hs | hs | hs⟩ | ⟨reg, cs, hcs, hs | hs⟩ |
    ⟨cs, hcs, hs⟩
  · rw [hs] at ha
    simp [initMF, afind] at ha
  · rw [hs] at ha
    simp [concState, concAttempt, afind] at ha
    rw [← ha] at hdone
    simp at hdone
  · rw [hs] at ha
    simp [concState, concAttempt, afind] at ha
    rw [← ha] at hdone
    simp at hdone
  · rw [hs] at ha
    simp [concState, concAttempt, afind] at ha
    rw [← ha] at hdone
    simp at hdone
  · rw [hs] at ha
    simp [concState, concAttempt, afind] at ha
    rw [← ha] at hdone
    simp at hdone
  · rw [hs] at ha
    simp [concState, concAttempt, afind] at ha
    rw [← ha] at hdone
    simp at hdone
  · rw [hs] at ha ⊢
    refine ⟨by simp [concState], by simp [concState], by simp [concState], ?_⟩
    intro cr hmem
    exact (hcs cr hmem).2.2.2.2

/-- Witness for `c1_amended`: two concurrent callers against remote `r`,
which registers container `7` after the injection; both callers resolve
to the module value and the effects happen once. -/
theorem c1_amended_witness :
    (run initMF c1DemoTrace).env.injections = 1 ∧
    (run initMF c1DemoTrace).env.initCalls = 1 ∧
    (run initMF c1DemoTrace).env.negotiationCalls = 1 := by
  have hg : GoodTrace (concOk cfgR "./App" 7 contentR) initMF c1DemoTrace := by
    refine .cons ⟨rfl, rfl⟩ (.cons ⟨rfl, rfl⟩ (.cons trivial (.cons trivial
      (.cons trivial (.cons ⟨rfl, rfl, rfl, by decide⟩
      (.cons trivial (.cons (show afind (remoteScopeOf cfgR)
        (run initMF (c1DemoTrace.take 7)).env.slots = some 7 by decide)
        .nil)))))))
  have h := c1_amended cfgR "./App" 7 contentR (.func 1) rfl c1DemoTrace hg
    { key := "r@u", scope := "r", name := "r", url := "u",
      phase := .doneOk 7, scriptAttached := true, timeoutActive := false }
    (by decide) rfl
  exact ⟨h.1, h.2.1, h.2.2.1⟩

end K11
